import Mathlib

/-!
Verification of the SkyForge daily-alignment pipeline.

This file is a shallow embedding, in Lean 4, of the computation pipeline of
the `skyforge` / `skskyforge` Python packages: the numerology, biorhythm and
lunar calculators, the risk analyzer, the wellness analyzers, the daily-entry
orchestrator, the `/generate/range` REST route and the CSV exporter.

Conventions of the embedding:
 * Python `int` becomes `ℤ`, Python `float` becomes `ℚ` (ideal arithmetic).
 * `math.sin` (through `_sin_deg` in `moon.py` and the radian computation in
   `biorhythm.py`) is abstracted as a parameter `sinDeg : ℚ → ℚ` standing for
   the sine of an angle given in degrees; every theorem below is quantified
   over it, since none of the verified properties depends on its values.
 * Python `round(x, 1)` (round-half-to-even on the scaled value) becomes
   `round1`, Python `int(x)` (truncation toward zero) becomes `pyint`,
   Python `x % m` for `m > 0` becomes `qmod`.
 * Mutation of the `UserProfile` object is made explicit: functions that may
   mutate the profile return the post-state as a second component.
 * File writes are made explicit: the CSV exporter returns the list of rows
   it writes, and the REST route returns a value of an explicit response type.
-/

/-- Truncation toward zero, the behaviour of Python `int()` on a float. -/
def pyint (q : ℚ) : ℤ := if 0 ≤ q then ⌊q⌋ else -⌊-q⌋

/-- Python `a % b` for a positive real modulus `b`: the representative of
`a` modulo `b` in `[0, b)`. -/
def qmod (a b : ℚ) : ℚ := a - b * ⌊a / b⌋

/-- Round-half-to-even to an integer, the behaviour of Python `round(x)`. -/
def bround (q : ℚ) : ℤ :=
  let f := ⌊q⌋
  let r := q - f
  if r < 1/2 then f
  else if 1/2 < r then f + 1
  else if f % 2 = 0 then f else f + 1

/-- Python `round(x, 1)`: round-half-to-even at one decimal place. -/
def round1 (q : ℚ) : ℚ := (bround (q * 10) : ℚ) / 10

/-- Python `s or default` for an optional string: `None` and the empty
string are falsy and select the default. -/
def pyOr (o : Option String) (d : String) : String :=
  match o with
  | none => d
  | some s => if s = "" then d else s

/-- Sum of the decimal digits of a natural number
(`sum(int(d) for d in str(n))` in the source). -/
def digitSum (n : ℕ) : ℕ := (Nat.digits 10 n).sum

theorem digitSum_le (n : ℕ) : digitSum n ≤ n := by
  induction n using Nat.strong_induction_on with
  | _ n ih =>
    rcases Nat.eq_zero_or_pos n with h | h
    · simp [h, digitSum]
    · rw [digitSum, Nat.digits_def' (by norm_num : 1 < 10) h]
      have h2 : digitSum (n / 10) ≤ n / 10 :=
        ih (n / 10) (Nat.div_lt_self h (by norm_num))
      simp only [List.sum_cons]
      have : (Nat.digits 10 (n / 10)).sum = digitSum (n / 10) := rfl
      omega

theorem digitSum_lt (n : ℕ) (h : 10 ≤ n) : digitSum n < n := by
  rw [digitSum, Nat.digits_def' (by norm_num : 1 < 10) (by omega)]
  have h2 : digitSum (n / 10) ≤ n / 10 := digitSum_le (n / 10)
  simp only [List.sum_cons]
  have : (Nat.digits 10 (n / 10)).sum = digitSum (n / 10) := rfl
  omega

theorem digitSum_pos (n : ℕ) (h : 1 ≤ n) : 1 ≤ digitSum n := by
  induction n using Nat.strong_induction_on with
  | _ n ih =>
    rw [digitSum, Nat.digits_def' (by norm_num : 1 < 10) (by omega)]
    simp only [List.sum_cons]
    rcases Nat.eq_zero_or_pos (n % 10) with h0 | h0
    · have hd : 1 ≤ n / 10 := by omega
      have h2 : 1 ≤ digitSum (n / 10) :=
        ih (n / 10) (Nat.div_lt_self (by omega) (by norm_num)) hd
      have : (Nat.digits 10 (n / 10)).sum = digitSum (n / 10) := rfl
      omega
    · omega

/-! ## Calendar dates

Python's `datetime.date` restricted to the operations the pipeline uses:
proleptic-Gregorian ordinal (for date subtraction and ordering), day of
year (`timetuple().tm_yday`), weekday name (`strftime("%A")`), and the
successor date (`+ timedelta(days=1)`). -/

structure PyDate where
  year : ℤ
  month : ℤ
  day : ℤ
  deriving DecidableEq

def isLeap (y : ℤ) : Bool := y % 4 = 0 && (y % 100 ≠ 0 || y % 400 = 0)

/-- Cumulative days in the months before month `m` of year `y`. -/
def daysBeforeMonth (y m : ℤ) : ℤ :=
  let base : ℤ :=
    if m ≤ 1 then 0 else if m = 2 then 31 else if m = 3 then 59
    else if m = 4 then 90 else if m = 5 then 120 else if m = 6 then 151
    else if m = 7 then 181 else if m = 8 then 212 else if m = 9 then 243
    else if m = 10 then 273 else if m = 11 then 304 else 334
  base + (if 2 < m ∧ isLeap y then 1 else 0)

def daysInMonth (y m : ℤ) : ℤ :=
  if m = 2 then (if isLeap y then 29 else 28)
  else if m = 4 ∨ m = 6 ∨ m = 9 ∨ m = 11 then 30
  else 31

/-- Proleptic-Gregorian ordinal (`date.toordinal()`): day 1 is 0001-01-01. -/
def PyDate.toOrdinal (d : PyDate) : ℤ :=
  365 * (d.year - 1) + (d.year - 1).fdiv 4 - (d.year - 1).fdiv 100 +
    (d.year - 1).fdiv 400 + daysBeforeMonth d.year d.month + d.day

/-- `timetuple().tm_yday`: 1-based day of the year. -/
def PyDate.dayOfYear (d : PyDate) : ℤ := daysBeforeMonth d.year d.month + d.day

def WEEKDAY_NAMES : List String :=
  ["Monday", "Tuesday", "Wednesday", "Thursday", "Friday", "Saturday", "Sunday"]

/-- `strftime("%A")`: ordinal 1 (0001-01-01) was a Monday. -/
def PyDate.weekdayName (d : PyDate) : String :=
  WEEKDAY_NAMES.getD ((d.toOrdinal - 1) % 7).toNat "Monday"

/-- The next calendar day (`+ timedelta(days=1)`). -/
def PyDate.next (d : PyDate) : PyDate :=
  if d.day < daysInMonth d.year d.month then ⟨d.year, d.month, d.day + 1⟩
  else if d.month < 12 then ⟨d.year, d.month + 1, 1⟩
  else ⟨d.year + 1, 1, 1⟩

/-! ## Numerology engine (`skyforge/calculators/numerology.py`) -/

def MASTER_NUMBERS : List ℤ := [11, 22, 33]

/-- `reduce_to_single_digit(number, keep_master)`: repeatedly replace the
number by the sum of the decimal digits of its absolute value while it is
greater than 9, stopping at 11/22/33 when `keep_master` is true. -/
def reduce_to_single_digit (number : ℤ) (keep_master : Bool) : ℤ :=
  if h : 9 < number then
    if keep_master ∧ number ∈ MASTER_NUMBERS then number
    else reduce_to_single_digit (digitSum number.natAbs) keep_master
  else number
termination_by number.toNat
decreasing_by
  have h10 : 10 ≤ number.natAbs := by omega
  have := digitSum_lt number.natAbs h10
  omega

theorem reduce_eq_of_le (number : ℤ) (h : number ≤ 9) (km : Bool) :
    reduce_to_single_digit number km = number := by
  rw [reduce_to_single_digit]
  simp [show ¬ 9 < number by omega]

theorem reduce_mem_of_pos (n : ℤ) (hn : 1 ≤ n) (km : Bool) :
    reduce_to_single_digit n km ∈ ([1, 2, 3, 4, 5, 6, 7, 8, 9, 11, 22, 33] : List ℤ) := by
  suffices H : ∀ k : ℕ, ∀ m : ℤ, m.toNat = k → 1 ≤ m →
      reduce_to_single_digit m km ∈ ([1, 2, 3, 4, 5, 6, 7, 8, 9, 11, 22, 33] : List ℤ) from
    H n.toNat n rfl hn
  intro k
  induction k using Nat.strong_induction_on with
  | _ k ih =>
    intro m hk h1
    rw [reduce_to_single_digit]
    by_cases h9 : 9 < m
    · simp only [dif_pos h9]
      by_cases hmaster : km = true ∧ m ∈ MASTER_NUMBERS
      · simp only [if_pos hmaster]
        rcases hmaster with ⟨-, hmem⟩
        simp only [MASTER_NUMBERS, List.mem_cons, List.mem_singleton] at hmem
        simp only [List.mem_cons, List.mem_singleton]
        tauto
      · simp only [if_neg hmaster]
        have hlt : digitSum m.natAbs < m.natAbs := digitSum_lt m.natAbs (by omega)
        have hpos : 1 ≤ digitSum m.natAbs := digitSum_pos m.natAbs (by omega)
        exact ih (digitSum m.natAbs : ℤ).toNat (by omega) _ rfl (by omega)
    · simp only [dif_neg h9]
      simp only [List.mem_cons, List.mem_singleton]
      omega

/-- Claim C1 (counterexample): at `n = -5` (or at `n = 0`) the function
returns its argument unchanged, which is outside `{1..9, 11, 22, 33}`; in
particular negative inputs are never digit-summed (`-38` would digit-sum to
`11` but the function returns `-38`). -/
theorem C1_counterexample :
    reduce_to_single_digit (-5) true = -5 ∧
    reduce_to_single_digit (-5) true ∉ ([1, 2, 3, 4, 5, 6, 7, 8, 9, 11, 22, 33] : List ℤ) ∧
    reduce_to_single_digit (-38) true = -38 := by
  refine ⟨reduce_eq_of_le (-5) (by norm_num) true, ?_, reduce_eq_of_le (-38) (by norm_num) true⟩
  rw [reduce_eq_of_le (-5) (by norm_num) true]
  decide

/-- Claim C1 (amended): for every integer `n ≥ 1` and either value of
`keep_master`, `reduce_to_single_digit(n, keep_master)` terminates and
returns a value in `{1..9, 11, 22, 33}`; for `n ≤ 0` (zero and negative
inputs) it returns `n` unchanged, so negative inputs are not digit-summed. -/
theorem C1_reduce_to_single_digit_range :
    (∀ n : ℤ, 1 ≤ n → ∀ km : Bool,
        reduce_to_single_digit n km ∈ ([1, 2, 3, 4, 5, 6, 7, 8, 9, 11, 22, 33] : List ℤ)) ∧
    (∀ n : ℤ, n ≤ 0 → ∀ km : Bool, reduce_to_single_digit n km = n) :=
  ⟨fun n hn km => reduce_mem_of_pos n hn km,
   fun n hn km => reduce_eq_of_le n (by omega) km⟩

/-- Claim C1 witness: the amended theorem applied at `38` and at `-5`. -/
theorem C1_witness :
    reduce_to_single_digit 38 true ∈ ([1, 2, 3, 4, 5, 6, 7, 8, 9, 11, 22, 33] : List ℤ) ∧
    reduce_to_single_digit (-5) false = -5 :=
  ⟨C1_reduce_to_single_digit_range.1 38 (by norm_num) true,
   C1_reduce_to_single_digit_range.2 (-5) (by norm_num) false⟩

/-- `calculate_life_path(birth_date)`: reduce month, day and the digit sum
of the year separately, then reduce the total. -/
def calculate_life_path (birth_date : PyDate) : ℤ :=
  let month := reduce_to_single_digit birth_date.month true
  let day := reduce_to_single_digit birth_date.day true
  let year := reduce_to_single_digit (digitSum birth_date.year.natAbs) true
  reduce_to_single_digit (month + day + year) true

/-- `calculate_personal_year(birth_date, target_year)`. -/
def calculate_personal_year (birth_date : PyDate) (target_year : ℤ) : ℤ :=
  let month := reduce_to_single_digit birth_date.month true
  let day := reduce_to_single_digit birth_date.day true
  let year := reduce_to_single_digit (digitSum target_year.natAbs) true
  reduce_to_single_digit (month + day + year) true

/-- `calculate_personal_month(personal_year, month)`. -/
def calculate_personal_month (personal_year month : ℤ) : ℤ :=
  reduce_to_single_digit (personal_year + month) true

/-- `calculate_personal_day(personal_month, day)`. -/
def calculate_personal_day (personal_month day : ℤ) : ℤ :=
  reduce_to_single_digit (personal_month + day) true

/-- `calculate_universal_day(target_date)`. -/
def calculate_universal_day (target_date : PyDate) : ℤ :=
  reduce_to_single_digit
    (target_date.month + target_date.day + (digitSum target_date.year.natAbs : ℤ)) true

/-- One entry of the `NUMBER_MEANINGS` table. -/
structure NumberMeaning where
  theme : String
  quality : String
  keywords : List String
  favorable : List String
  challenging : List String
  master_message : Option String := none
  deriving DecidableEq

def meaning1 : NumberMeaning :=
  { theme := "New Beginnings & Independence", quality := "Active",
    keywords := ["initiative", "leadership", "independence", "pioneering"],
    favorable := ["Starting projects", "Taking initiative", "Self-promotion"],
    challenging := ["Teamwork", "Patience", "Following others"] }

def meaning2 : NumberMeaning :=
  { theme := "Partnership & Balance", quality := "Receptive",
    keywords := ["cooperation", "diplomacy", "sensitivity", "patience"],
    favorable := ["Collaboration", "Listening", "Mediation", "Details"],
    challenging := ["Quick decisions", "Standing alone", "Confrontation"] }

def meaning3 : NumberMeaning :=
  { theme := "Expression & Creativity", quality := "Creative",
    keywords := ["communication", "joy", "creativity", "self-expression"],
    favorable := ["Creative work", "Social events", "Writing", "Speaking"],
    challenging := ["Routine tasks", "Discipline", "Serious matters"] }

def meaning4 : NumberMeaning :=
  { theme := "Foundation & Structure", quality := "Stable",
    keywords := ["discipline", "organization", "hard work", "foundation"],
    favorable := ["Planning", "Building", "Organization", "Practical tasks"],
    challenging := ["Spontaneity", "Change", "Taking risks"] }

def meaning5 : NumberMeaning :=
  { theme := "Change & Freedom", quality := "Dynamic",
    keywords := ["freedom", "adventure", "change", "versatility"],
    favorable := ["Travel", "Variety", "Adaptability", "New experiences"],
    challenging := ["Routine", "Commitment", "Long-term planning"] }

def meaning6 : NumberMeaning :=
  { theme := "Responsibility & Nurturing", quality := "Nurturing",
    keywords := ["home", "family", "responsibility", "service"],
    favorable := ["Family matters", "Home projects", "Caregiving", "Teaching"],
    challenging := ["Personal freedom", "Saying no", "Self-focus"] }

def meaning7 : NumberMeaning :=
  { theme := "Introspection & Wisdom", quality := "Spiritual",
    keywords := ["analysis", "spirituality", "wisdom", "solitude"],
    favorable := ["Research", "Meditation", "Study", "Reflection"],
    challenging := ["Social events", "Quick decisions", "Surface matters"] }

def meaning8 : NumberMeaning :=
  { theme := "Abundance & Power", quality := "Material",
    keywords := ["success", "power", "abundance", "manifestation"],
    favorable := ["Business", "Financial matters", "Authority", "Achievement"],
    challenging := ["Letting go", "Emotional matters", "Spiritual pursuits"] }

def meaning9 : NumberMeaning :=
  { theme := "Completion & Humanitarianism", quality := "Universal",
    keywords := ["completion", "humanitarianism", "wisdom", "endings"],
    favorable := ["Finishing projects", "Giving", "Release", "Global thinking"],
    challenging := ["New beginnings", "Personal gain", "Attachment"] }

def meaning11 : NumberMeaning :=
  { theme := "Illumination & Intuition (Master Number)", quality := "Inspirational",
    keywords := ["intuition", "inspiration", "illumination", "idealism"],
    favorable := ["Spiritual work", "Inspiration", "Teaching", "Healing"],
    challenging := ["Grounding", "Practical matters", "Self-doubt"],
    master_message := some "Master Number 11 active - heightened intuition and spiritual insight available. Trust your inner guidance." }

def meaning22 : NumberMeaning :=
  { theme := "Master Builder (Master Number)", quality := "Manifesting",
    keywords := ["vision", "practical idealism", "large projects", "legacy"],
    favorable := ["Large-scale projects", "Manifestation", "Building systems"],
    challenging := ["Small thinking", "Impatience", "Overwhelm"],
    master_message := some "Master Number 22 active - potential for manifesting grand visions into reality. Think big but act practically." }

def meaning33 : NumberMeaning :=
  { theme := "Master Teacher (Master Number)", quality := "Compassionate",
    keywords := ["compassion", "healing", "teaching", "selfless service"],
    favorable := ["Teaching", "Healing", "Compassionate service", "Guidance"],
    challenging := ["Self-care", "Boundaries", "Personal needs"],
    master_message := some "Master Number 33 active - profound healing and teaching energy available. Serve with love but maintain boundaries." }

/-- `NUMBER_MEANINGS.get(number, NUMBER_MEANINGS[1])`
(`get_number_meaning`): unknown numbers fall back to the entry for 1. -/
def get_number_meaning (number : ℤ) : NumberMeaning :=
  if number = 1 then meaning1 else if number = 2 then meaning2
  else if number = 3 then meaning3 else if number = 4 then meaning4
  else if number = 5 then meaning5 else if number = 6 then meaning6
  else if number = 7 then meaning7 else if number = 8 then meaning8
  else if number = 9 then meaning9 else if number = 11 then meaning11
  else if number = 22 then meaning22 else if number = 33 then meaning33
  else meaning1

structure NumerologyData where
  life_path : ℤ
  personal_year : ℤ
  personal_month : ℤ
  personal_day : ℤ
  universal_day : ℤ
  day_theme : String := ""
  energy_quality : String := ""
  favorable_for : List String := []
  challenging_for : List String := []
  master_number_active : Bool := false
  master_number_message : Option String := none
  deriving DecidableEq

/-- `calculate_numerology_for_day(birth_date, target_date, life_path)`. -/
def calculate_numerology_for_day (birth_date target_date : PyDate)
    (life_path : Option ℤ) : NumerologyData :=
  let life_path := match life_path with
    | none => calculate_life_path birth_date
    | some v => v
  let personal_year := calculate_personal_year birth_date target_date.year
  let personal_month := calculate_personal_month personal_year target_date.month
  let personal_day := calculate_personal_day personal_month target_date.day
  let universal_day := calculate_universal_day target_date
  let day_meaning := get_number_meaning personal_day
  let master_active := personal_day ∈ MASTER_NUMBERS
  let master_message := if master_active then day_meaning.master_message else none
  { life_path := life_path, personal_year := personal_year,
    personal_month := personal_month, personal_day := personal_day,
    universal_day := universal_day, day_theme := day_meaning.theme,
    energy_quality := day_meaning.quality, favorable_for := day_meaning.favorable,
    challenging_for := day_meaning.challenging,
    master_number_active := master_active,
    master_number_message := master_message }

/-! ## Biorhythm engine (`skyforge/calculators/biorhythm.py`)

`calculate_cycle_value(days_alive, cycle_length)` is
`sin(2π · days_alive / cycle_length) × 100`; with the degree-based sine
parameter `sinDeg` this is `sinDeg (360 · days_alive / cycle_length) * 100`. -/

def PHYSICAL_CYCLE : ℤ := 23
def EMOTIONAL_CYCLE : ℤ := 28
def INTELLECTUAL_CYCLE : ℤ := 33
def CRITICAL_THRESHOLD : ℚ := 5

def calculate_cycle_value (sinDeg : ℚ → ℚ) (days_alive cycle_length : ℤ) : ℚ :=
  sinDeg (360 * (days_alive : ℚ) / (cycle_length : ℚ)) * 100

/-- `get_cycle_phase(value)`. -/
def get_cycle_phase (value : ℚ) : String :=
  if |value| ≤ CRITICAL_THRESHOLD then "Critical"
  else if 80 < value then "Peak"
  else if 50 < value then "High"
  else if 0 < value then "Rising"
  else if -50 < value then "Falling"
  else if -80 < value then "Low"
  else "Valley"

/-- `is_critical_day(days_alive, cycle_length)`. -/
def is_critical_day (sinDeg : ℚ → ℚ) (days_alive cycle_length : ℤ) : Bool :=
  |calculate_cycle_value sinDeg days_alive cycle_length| ≤ CRITICAL_THRESHOLD

/-- `calculate_overall_energy(physical, emotional, intellectual)`. -/
def calculate_overall_energy (physical emotional intellectual : ℚ) : String :=
  let values := [physical, emotional, intellectual]
  let avg := values.sum / 3
  let positive_count := (values.filter (fun v => 20 < v)).length
  let negative_count := (values.filter (fun v => v < -20)).length
  if 2 ≤ positive_count ∧ 1 ≤ negative_count then "Mixed"
  else if 2 ≤ negative_count ∧ 1 ≤ positive_count then "Mixed"
  else if 40 < avg then "High"
  else if -20 < avg then "Moderate"
  else "Low"

/-- `get_best_activities(physical, emotional, intellectual)`. -/
def get_best_activities (physical emotional intellectual : ℚ) : List String :=
  let activities :=
    (if 50 < physical then ["Exercise", "Physical labor", "Sports", "Active tasks"]
     else if 0 < physical then ["Moderate activity", "Walking", "Light exercise"] else []) ++
    (if 50 < emotional then ["Social events", "Creative expression", "Relationships"]
     else if 0 < emotional then ["Connecting with friends", "Artistic pursuits"] else []) ++
    (if 50 < intellectual then ["Complex problem-solving", "Learning", "Strategic planning"]
     else if 0 < intellectual then ["Reading", "Research", "Mental tasks"] else [])
  let activities := if activities = [] then ["Rest", "Routine tasks", "Self-care"] else activities
  activities.take 4

/-- `get_challenging_activities(physical, emotional, intellectual)`. -/
def get_challenging_activities (physical emotional intellectual : ℚ) : List String :=
  let challenges :=
    (if physical < -30 then ["Strenuous exercise", "Physical competitions"] else []) ++
    (if |physical| ≤ CRITICAL_THRESHOLD then ["High-risk physical activities"] else []) ++
    (if emotional < -30 then ["Difficult conversations", "Emotional decisions"] else []) ++
    (if |emotional| ≤ CRITICAL_THRESHOLD then ["Relationship confrontations"] else []) ++
    (if intellectual < -30 then ["Complex analysis", "Important decisions"] else []) ++
    (if |intellectual| ≤ CRITICAL_THRESHOLD then ["Strategic planning"] else [])
  if challenges ≠ [] then challenges.take 4 else ["No specific challenges today"]

/-- `get_peak_hours_recommendation(physical, intellectual)`. -/
def get_peak_hours_recommendation (physical intellectual : ℚ) : String × String :=
  let physical_hours :=
    if 30 < physical then "Morning (6-10 AM) - Physical energy peak"
    else if 0 < physical then "Late morning (9-11 AM)"
    else "Gentle movement anytime, avoid strenuous activity"
  let mental_hours :=
    if 30 < intellectual then "Late morning to early afternoon (10 AM - 2 PM)"
    else if 0 < intellectual then "Mid-morning (9-11 AM)"
    else "Routine mental tasks only, avoid complex decisions"
  (physical_hours, mental_hours)

structure BiorhythmData where
  physical : ℚ
  emotional : ℚ
  intellectual : ℚ
  physical_phase : String := ""
  emotional_phase : String := ""
  intellectual_phase : String := ""
  physical_critical : Bool := false
  emotional_critical : Bool := false
  intellectual_critical : Bool := false
  overall_energy : String := ""
  best_for : List String := []
  challenging_for : List String := []
  peak_physical_hours : String := ""
  peak_mental_hours : String := ""
  rest_recommended : String := ""
  deriving DecidableEq

/-- `calculate_biorhythm_for_day(birth_date, target_date)`. -/
def calculate_biorhythm_for_day (sinDeg : ℚ → ℚ) (birth_date target_date : PyDate) :
    BiorhythmData :=
  let days_alive := target_date.toOrdinal - birth_date.toOrdinal
  let physical := round1 (calculate_cycle_value sinDeg days_alive PHYSICAL_CYCLE)
  let emotional := round1 (calculate_cycle_value sinDeg days_alive EMOTIONAL_CYCLE)
  let intellectual := round1 (calculate_cycle_value sinDeg days_alive INTELLECTUAL_CYCLE)
  let physical_critical := is_critical_day sinDeg days_alive PHYSICAL_CYCLE
  let emotional_critical := is_critical_day sinDeg days_alive EMOTIONAL_CYCLE
  let intellectual_critical := is_critical_day sinDeg days_alive INTELLECTUAL_CYCLE
  let overall_energy := calculate_overall_energy physical emotional intellectual
  let peak := get_peak_hours_recommendation physical intellectual
  let rest_rec :=
    if overall_energy = "Low" then "Extra rest needed - early bedtime recommended"
    else if physical_critical || emotional_critical || intellectual_critical then
      "Critical day - additional rest and self-care important"
    else if overall_energy = "High" then "Normal rest schedule, energy levels good"
    else "Standard rest, wind down by 10 PM"
  { physical := physical, emotional := emotional, intellectual := intellectual,
    physical_phase := get_cycle_phase physical,
    emotional_phase := get_cycle_phase emotional,
    intellectual_phase := get_cycle_phase intellectual,
    physical_critical := physical_critical,
    emotional_critical := emotional_critical,
    intellectual_critical := intellectual_critical,
    overall_energy := overall_energy,
    best_for := get_best_activities physical emotional intellectual,
    challenging_for := get_challenging_activities physical emotional intellectual,
    peak_physical_hours := peak.1, peak_mental_hours := peak.2,
    rest_recommended := rest_rec }

/-! ## Lunar position engine (`skyforge/calculators/moon.py`) -/

def ZODIAC_SIGNS : List String :=
  ["Aries", "Taurus", "Gemini", "Cancer",
   "Leo", "Virgo", "Libra", "Scorpio",
   "Sagittarius", "Capricorn", "Aquarius", "Pisces"]

/-- `SIGN_ELEMENTS` lookup (the source dict is total on the 12 signs). -/
def SIGN_ELEMENTS (sign : String) : String :=
  if sign = "Aries" ∨ sign = "Leo" ∨ sign = "Sagittarius" then "Fire"
  else if sign = "Taurus" ∨ sign = "Virgo" ∨ sign = "Capricorn" then "Earth"
  else if sign = "Gemini" ∨ sign = "Libra" ∨ sign = "Aquarius" then "Air"
  else "Water"

/-- `SIGN_MODALITIES` lookup (the source dict is total on the 12 signs). -/
def SIGN_MODALITIES (sign : String) : String :=
  if sign = "Aries" ∨ sign = "Cancer" ∨ sign = "Libra" ∨ sign = "Capricorn" then "Cardinal"
  else if sign = "Taurus" ∨ sign = "Leo" ∨ sign = "Scorpio" ∨ sign = "Aquarius" then "Fixed"
  else "Mutable"

/-- One entry of the `MOON_SIGN_THEMES` table. -/
structure MoonSignTheme where
  theme : String
  optimal : List String
  avoid : List String
  deriving DecidableEq

/-- `MOON_SIGN_THEMES` lookup (the source dict is total on the 12 signs;
the `Pisces` entry doubles as the structural fallback). -/
def MOON_SIGN_THEMES (sign : String) : MoonSignTheme :=
  if sign = "Aries" then
    { theme := "Action & Initiative",
      optimal := ["Starting new projects", "Physical activity", "Quick decisions"],
      avoid := ["Patience-required tasks", "Delicate negotiations", "Long-term planning"] }
  else if sign = "Taurus" then
    { theme := "Stability & Comfort",
      optimal := ["Financial planning", "Enjoying nature", "Cooking", "Sensual pleasures"],
      avoid := ["Rushing", "Sudden changes", "Skipping meals"] }
  else if sign = "Gemini" then
    { theme := "Communication & Curiosity",
      optimal := ["Writing", "Learning", "Short trips", "Networking"],
      avoid := ["Detailed analysis", "Emotional depth", "Long-term commitments"] }
  else if sign = "Cancer" then
    { theme := "Nurturing & Emotional Depth",
      optimal := ["Family time", "Home projects", "Self-care", "Emotional conversations"],
      avoid := ["Confrontations", "Major business decisions", "Excessive socializing"] }
  else if sign = "Leo" then
    { theme := "Creativity & Self-Expression",
      optimal := ["Creative projects", "Leadership", "Romance", "Public speaking"],
      avoid := ["Humility tasks", "Background roles", "Criticism"] }
  else if sign = "Virgo" then
    { theme := "Analysis & Service",
      optimal := ["Organizing", "Health routines", "Detail work", "Helping others"],
      avoid := ["Big picture thinking", "Spontaneity", "Overlooking details"] }
  else if sign = "Libra" then
    { theme := "Harmony & Partnership",
      optimal := ["Relationships", "Negotiations", "Art appreciation", "Social events"],
      avoid := ["Confrontation", "Solo decisions", "Unbalanced situations"] }
  else if sign = "Scorpio" then
    { theme := "Transformation & Depth",
      optimal := ["Deep research", "Psychological work", "Intimacy", "Endings/Beginnings"],
      avoid := ["Superficial interactions", "Avoiding emotions", "Control issues"] }
  else if sign = "Sagittarius" then
    { theme := "Expansion & Adventure",
      optimal := ["Travel", "Philosophy", "Higher learning", "Optimism"],
      avoid := ["Details", "Confinement", "Pessimistic people"] }
  else if sign = "Capricorn" then
    { theme := "Achievement & Structure",
      optimal := ["Career planning", "Long-term goals", "Discipline", "Authority"],
      avoid := ["Spontaneity", "Emotional displays", "Shortcuts"] }
  else if sign = "Aquarius" then
    { theme := "Innovation & Humanity",
      optimal := ["Technology", "Social causes", "Unconventional ideas", "Group activities"],
      avoid := ["Tradition for tradition's sake", "Emotional demands", "Routine"] }
  else
    { theme := "Intuition & Compassion",
      optimal := ["Meditation", "Creative arts", "Spiritual practices", "Compassion"],
      avoid := ["Harsh reality", "Strict boundaries", "Confrontation"] }

def PHASE_RANGES : List (ℚ × ℚ × String) :=
  [(0, 22.5, "New Moon"),
   (22.5, 67.5, "Waxing Crescent"),
   (67.5, 112.5, "First Quarter"),
   (112.5, 157.5, "Waxing Gibbous"),
   (157.5, 202.5, "Full Moon"),
   (202.5, 247.5, "Waning Gibbous"),
   (247.5, 292.5, "Last Quarter"),
   (292.5, 337.5, "Waning Crescent"),
   (337.5, 360, "New Moon")]

/-- `datetime_to_julian_day(dt)` evaluated at 12:00:00, the only time the
pipeline uses (`calculate_moon_data_for_day` builds the datetime at noon). -/
def datetime_to_julian_day_noon (dt : PyDate) : ℚ :=
  let year := if dt.month ≤ 2 then dt.year - 1 else dt.year
  let month := if dt.month ≤ 2 then dt.month + 12 else dt.month
  let day : ℚ := (dt.day : ℚ) + 12 / 24
  let A := pyint ((year : ℚ) / 100)
  let B := 2 - A + pyint ((A : ℚ) / 4)
  (pyint (365.25 * ((year : ℚ) + 4716)) : ℚ) +
    (pyint (30.6001 * ((month : ℚ) + 1)) : ℚ) + day + (B : ℚ) - 1524.5

/-- `get_phase_from_angle(angle)`. -/
def get_phase_from_angle (angle : ℚ) : String × ℚ :=
  let illumination := (1 - |180 - angle| / 180) * 100
  let a := qmod angle 360
  let name :=
    match PHASE_RANGES.find? (fun r => decide (r.1 ≤ a ∧ a < r.2.1)) with
    | some r => r.2.2
    | none => "New Moon"
  (name, round1 illumination)

/-- `get_zodiac_sign_from_longitude(longitude)`: Python `int()` truncates
toward zero, then `% 12` is the non-negative remainder. -/
def get_zodiac_sign_from_longitude (longitude : ℚ) : String :=
  let sign_index := (pyint (longitude / 30)) % 12
  ZODIAC_SIGNS.getD sign_index.toNat ""

/-- `calculate_moon_position_simple(jd)`: simplified mean longitudes. -/
def calculate_moon_position_simple (sinDeg : ℚ → ℚ) (jd : ℚ) : ℚ × ℚ :=
  let d := jd - 2451545.0
  let L_sun := qmod (280.466 + 0.9856474 * d) 360
  let L_moon := qmod (218.32 + 13.176396 * d) 360
  let M_moon := qmod (134.963 + 13.064993 * d) 360
  let moon_long := qmod (L_moon + 6.29 * sinDeg M_moon) 360
  (moon_long, L_sun)

structure MoonData where
  phase : String
  phase_percentage : ℚ
  zodiac_sign : String
  sign_element : String
  sign_modality : String
  moon_void_of_course : Bool := false
  voc_start : Option String := none
  voc_end : Option String := none
  energy_theme : String := ""
  optimal_activities : List String := []
  avoid_activities : List String := []
  deriving DecidableEq

/-- `calculate_moon_data_for_day(target_date)` (the simplified engine; the
Swiss-Ephemeris variant is an import-time substitute outside this model).
`voc_start`/`voc_end` are datetimes in the source, modelled by their
`%I:%M %p` rendering since the pipeline only ever formats them. -/
def calculate_moon_data_for_day (sinDeg : ℚ → ℚ) (target_date : PyDate) : MoonData :=
  let jd := datetime_to_julian_day_noon target_date
  let pos := calculate_moon_position_simple sinDeg jd
  let moon_long := pos.1
  let sun_long := pos.2
  let phase_angle := qmod (moon_long - sun_long) 360
  let ph := get_phase_from_angle phase_angle
  let zodiac_sign := get_zodiac_sign_from_longitude moon_long
  let theme_data := MOON_SIGN_THEMES zodiac_sign
  { phase := ph.1, phase_percentage := ph.2, zodiac_sign := zodiac_sign,
    sign_element := SIGN_ELEMENTS zodiac_sign,
    sign_modality := SIGN_MODALITIES zodiac_sign,
    moon_void_of_course := false, voc_start := none, voc_end := none,
    energy_theme := theme_data.theme,
    optimal_activities := theme_data.optimal,
    avoid_activities := theme_data.avoid }

/-! ## Risk analyzer (`skyforge/analyzers/risk.py`) -/

def RISK_WEIGHTS_moon_voc : ℤ := 3
def RISK_WEIGHTS_biorhythm_critical : ℤ := 4
def RISK_WEIGHTS_biorhythm_low : ℤ := 2

def PROTECTIVE_PRACTICES_spiritual : List String :=
  ["Morning grounding meditation", "Protective visualization",
   "Energy clearing", "Intention setting"]

def PROTECTIVE_PRACTICES_emotional : List String :=
  ["Journaling", "Breathwork", "Self-compassion practice",
   "Connecting with supportive people"]

def PROTECTIVE_PRACTICES_physical : List String :=
  ["Gentle stretching", "Adequate hydration", "Extra rest", "Mindful movement"]

/-- `GROUNDING_TECHNIQUES.get(level, GROUNDING_TECHNIQUES["Low"])`. -/
def GROUNDING_TECHNIQUES (level : String) : List String :=
  if level = "Low" then ["5-minute breathing", "Brief nature walk"]
  else if level = "Moderate" then
    ["10-minute meditation", "Grounding visualization", "Body scan"]
  else if level = "Elevated" then
    ["20-minute meditation", "Earth connection exercise", "Cold water on wrists"]
  else if level = "High" then
    ["Extended meditation", "Nature immersion", "Digital detox", "Early bedtime"]
  else ["5-minute breathing", "Brief nature walk"]

structure RiskWarning where
  domain : String
  source : String
  message : String
  severity : String
  deriving DecidableEq

structure RiskAnalysisData where
  spiritual_risk : ℤ
  emotional_risk : ℤ
  physical_risk : ℤ
  overall_risk_level : String := ""
  risk_score : ℚ
  warnings : List RiskWarning := []
  protective_practices : List String := []
  grounding_techniques : List String := []
  deriving DecidableEq

/-- The set of "challenging" personal-day numbers in `calculate_risk_analysis`. -/
def challenging_numbers : List ℤ := [4, 7, 9]

/-- `calculate_risk_analysis(moon_data, biorhythm_data, numerology_data)`.
The sequential `+=` accumulations of the source are rendered as one sum per
domain, each summand guarded by the same condition as in the source and
listed in source order; the sequential `warnings.append` calls become a
concatenation of singleton lists in the same order.  Note that the
challenging-numerology branch adjusts a score but appends no warning. -/
def calculate_risk_analysis (moon_data : MoonData) (biorhythm_data : BiorhythmData)
    (numerology_data : NumerologyData) : RiskAnalysisData :=
  let spiritual_risk : ℤ :=
    (if moon_data.moon_void_of_course then RISK_WEIGHTS_moon_voc else 0) +
    (if biorhythm_data.intellectual_critical then 2 else 0) +
    (if biorhythm_data.intellectual < -50 then 1 else 0) +
    (if numerology_data.personal_day ∈ challenging_numbers then
      (if numerology_data.personal_day = 7 then 1 else 0) else 0)
  let emotional_risk : ℤ :=
    (if moon_data.moon_void_of_course then RISK_WEIGHTS_moon_voc else 0) +
    (if biorhythm_data.emotional_critical then RISK_WEIGHTS_biorhythm_critical else 0) +
    (if biorhythm_data.emotional < -50 then RISK_WEIGHTS_biorhythm_low else 0) +
    (if numerology_data.personal_day ∈ challenging_numbers then
      (if numerology_data.personal_day ≠ 7 ∧ numerology_data.personal_day = 9 then 1 else 0)
     else 0)
  let physical_risk : ℤ :=
    (if biorhythm_data.physical_critical then RISK_WEIGHTS_biorhythm_critical else 0) +
    (if biorhythm_data.physical < -50 then RISK_WEIGHTS_biorhythm_low else 0) +
    (if numerology_data.personal_day ∈ challenging_numbers then
      (if numerology_data.personal_day ≠ 7 ∧ numerology_data.personal_day ≠ 9 ∧
          numerology_data.personal_day = 4 then 1 else 0)
     else 0)
  let warnings : List RiskWarning :=
    (if moon_data.moon_void_of_course then
      [{ domain := "Spiritual", source := "Moon Void of Course",
         message := "Avoid initiating new projects or making major decisions",
         severity := "Caution" }] else []) ++
    (if biorhythm_data.physical_critical then
      [{ domain := "Physical", source := "Physical Biorhythm Critical",
         message := "Take extra care with physical activities; accident risk elevated",
         severity := "Warning" }] else []) ++
    (if biorhythm_data.physical < -50 then
      [{ domain := "Physical", source := "Physical Biorhythm Low",
         message := "Energy is depleted; prioritize rest over exertion",
         severity := "Caution" }] else []) ++
    (if biorhythm_data.emotional_critical then
      [{ domain := "Emotional", source := "Emotional Biorhythm Critical",
         message := "Emotional sensitivity heightened; practice extra self-care",
         severity := "Warning" }] else []) ++
    (if biorhythm_data.emotional < -50 then
      [{ domain := "Emotional", source := "Emotional Biorhythm Low",
         message := "Emotional resilience reduced; avoid difficult conversations",
         severity := "Caution" }] else []) ++
    (if biorhythm_data.intellectual_critical then
      [{ domain := "Spiritual", source := "Intellectual Biorhythm Critical",
         message := "Mental clarity fluctuating; double-check important decisions",
         severity := "Caution" }] else []) ++
    (if biorhythm_data.intellectual < -50 then
      [{ domain := "Spiritual", source := "Intellectual Biorhythm Low",
         message := "Mental energy depleted; postpone complex analysis",
         severity := "Caution" }] else [])
  let spiritual_risk := min spiritual_risk 10
  let emotional_risk := min emotional_risk 10
  let physical_risk := min physical_risk 10
  let total_risk : ℚ := ((spiritual_risk + emotional_risk + physical_risk : ℤ) : ℚ) / 3
  let risk_score := round1 (total_risk * 10)
  let overall_level :=
    if risk_score < 25 then "Low"
    else if risk_score < 50 then "Moderate"
    else if risk_score < 75 then "Elevated"
    else "High"
  let protective :=
    (if 3 ≤ spiritual_risk then PROTECTIVE_PRACTICES_spiritual.take 2 else []) ++
    (if 3 ≤ emotional_risk then PROTECTIVE_PRACTICES_emotional.take 2 else []) ++
    (if 3 ≤ physical_risk then PROTECTIVE_PRACTICES_physical.take 2 else [])
  let protective :=
    if protective = [] then ["Standard self-care practices", "Mindful awareness"]
    else protective
  { spiritual_risk := spiritual_risk, emotional_risk := emotional_risk,
    physical_risk := physical_risk, overall_risk_level := overall_level,
    risk_score := risk_score, warnings := warnings,
    protective_practices := protective.take 4,
    grounding_techniques := GROUNDING_TECHNIQUES overall_level }

/-! ## Wellness/ritual analyzers (`skyforge/analyzers/wellness.py`) -/

/-- `ELEMENT_EXERCISES.get(element, ELEMENT_EXERCISES["Earth"])`. -/
def ELEMENT_EXERCISES (element : String) : List String :=
  if element = "Fire" then ["HIIT", "Running", "Power yoga", "Boxing", "Dancing"]
  else if element = "Earth" then
    ["Weight training", "Hiking", "Pilates", "Gardening", "Walking"]
  else if element = "Air" then
    ["Dance", "Cycling", "Varied circuits", "Tennis", "Jump rope"]
  else if element = "Water" then
    ["Swimming", "Flow yoga", "Tai chi", "Aqua aerobics", "Surfing"]
  else ["Weight training", "Hiking", "Pilates", "Gardening", "Walking"]

/-- One entry of the `ELEMENT_NOURISHMENT` table. -/
structure NourishmentEntry where
  focus : String
  emphasized : List String
  minimize : List String
  hydration : String
  breakfast : String
  lunch : String
  dinner : String
  snacks : List String
  deriving DecidableEq

/-- `ELEMENT_NOURISHMENT.get(element, ELEMENT_NOURISHMENT["Earth"])`. -/
def ELEMENT_NOURISHMENT (element : String) : NourishmentEntry :=
  if element = "Fire" then
    { focus := "Cooling and light",
      emphasized := ["Fresh salads", "Fruits", "Cucumber", "Mint", "Coconut water"],
      minimize := ["Heavy meats", "Spicy foods", "Alcohol", "Excessive caffeine"],
      hydration := "Extra water and cooling beverages",
      breakfast := "Fresh fruit smoothie with greens",
      lunch := "Large colorful salad with light protein",
      dinner := "Grilled fish with steamed vegetables",
      snacks := ["Fresh fruit", "Coconut", "Cooling herbal tea"] }
  else if element = "Air" then
    { focus := "Light and varied",
      emphasized := ["Leafy greens", "Light proteins", "Seeds", "Sprouts", "Berries"],
      minimize := ["Heavy, dense foods", "Large portions", "Fried foods"],
      hydration := "Consistent hydration throughout day",
      breakfast := "Light yogurt parfait with granola",
      lunch := "Variety of small dishes, tapas style",
      dinner := "Light stir-fry with diverse vegetables",
      snacks := ["Seeds", "Light crackers", "Fresh berries"] }
  else if element = "Water" then
    { focus := "Warming and comforting",
      emphasized := ["Soups", "Stews", "Ginger", "Cinnamon", "Warming spices"],
      minimize := ["Cold foods", "Raw foods", "Excessive dairy", "Ice water"],
      hydration := "Warm water, ginger tea, herbal infusions",
      breakfast := "Warm porridge with cinnamon and honey",
      lunch := "Nourishing soup with whole grain bread",
      dinner := "Comforting stew or curry",
      snacks := ["Warm spiced milk", "Baked apple", "Ginger cookies"] }
  else
    { focus := "Grounding and nourishing",
      emphasized := ["Root vegetables", "Whole grains", "Legumes", "Nuts", "Mushrooms"],
      minimize := ["Processed foods", "Excessive sugar", "Light/airy foods"],
      hydration := "Warm herbal teas, room temperature water",
      breakfast := "Warm oatmeal with nuts and seeds",
      lunch := "Hearty grain bowl with roasted vegetables",
      dinner := "Root vegetable stew with whole grain bread",
      snacks := ["Trail mix", "Hummus with vegetables", "Whole grain crackers"] }

structure ExerciseRecommendation where
  exercise_type : String
  intensity : String
  optimal_time : String
  duration_minutes : ℤ
  specific_activities : List String := []
  avoid_today : List String := []
  rationale : String := ""
  deriving DecidableEq

/-- Python `f"{x:.0f}"`: the float rendered with zero decimal places
(round-half-to-even; a negative value rounding to zero prints `-0`). -/
def formatF0 (q : ℚ) : String :=
  let n := bround q
  if n = 0 ∧ q < 0 then "-0" else toString n

/-- `generate_exercise_recommendation(biorhythm_data, moon_data)`. -/
def generate_exercise_recommendation (biorhythm_data : BiorhythmData)
    (moon_data : MoonData) : ExerciseRecommendation :=
  let physical := biorhythm_data.physical
  let element := moon_data.sign_element
  if biorhythm_data.physical_critical then
    { exercise_type := "Rest/Gentle Movement", intensity := "Recovery",
      optimal_time := "Listen to your body", duration_minutes := 20,
      specific_activities := ["Gentle stretching", "Short walk", "Restorative yoga"],
      avoid_today := ["High intensity", "Heavy lifting", "Competitive sports"],
      rationale := "Physical biorhythm at critical point - prioritize recovery" }
  else
    let base :=
      if 70 < physical then ("High Intensity Training", "High", 45, "Morning (7-9 AM)")
      else if 40 < physical then ("Strength Training", "Moderate-High", 40, "Morning (8-10 AM)")
      else if 0 < physical then ("Moderate Cardio", "Moderate", 30, "Mid-morning (9-11 AM)")
      else if -40 < physical then
        ("Light Activity", "Low-Moderate", 25, "Late morning or early evening")
      else ("Gentle Movement", "Low", 20, "When energy feels best")
    let activities := (ELEMENT_EXERCISES element).take 3
    let avoid :=
      (if physical < -30 then ["High-intensity cardio", "Heavy weights"] else []) ++
      (if biorhythm_data.emotional < -30 then ["Competitive sports"] else []) ++
      (if biorhythm_data.intellectual < -30 then ["Complex new routines"] else [])
    let avoid := if avoid = [] then ["Overexertion beyond energy levels"] else avoid
    let p := formatF0 physical
    let e := element.toLower
    { exercise_type := base.1, intensity := base.2.1,
      optimal_time := base.2.2.2, duration_minutes := base.2.2.1,
      specific_activities := activities, avoid_today := avoid.take 3,
      rationale := s!"Physical biorhythm at {p}%, {element} moon energy favors {e}-aligned activities" }

structure NourishmentGuidance where
  element_focus : String
  foods_emphasized : List String := []
  foods_minimize : List String := []
  hydration_focus : String := ""
  meal_timing : String := ""
  breakfast_suggestion : String := ""
  lunch_suggestion : String := ""
  dinner_suggestion : String := ""
  snack_suggestions : List String := []
  deriving DecidableEq

/-- `generate_nourishment_guidance(moon_data, biorhythm_data)`. -/
def generate_nourishment_guidance (moon_data : MoonData)
    (biorhythm_data : BiorhythmData) : NourishmentGuidance :=
  let guidance := ELEMENT_NOURISHMENT moon_data.sign_element
  let meal_timing :=
    if biorhythm_data.physical < 0 then "Earlier, lighter dinner recommended (by 6:30 PM)"
    else if biorhythm_data.overall_energy = "High" then
      "Normal timing with adequate portions for activity"
    else "Standard timing, moderate portions"
  { element_focus := guidance.focus, foods_emphasized := guidance.emphasized,
    foods_minimize := guidance.minimize, hydration_focus := guidance.hydration,
    meal_timing := meal_timing, breakfast_suggestion := guidance.breakfast,
    lunch_suggestion := guidance.lunch, dinner_suggestion := guidance.dinner,
    snack_suggestions := guidance.snacks }

structure MorningRitualData where
  wake_time_suggestion : String := ""
  intention_setting : String := ""
  breathwork : String := ""
  movement : String := ""
  duration_minutes : ℤ := 15
  deriving DecidableEq

/-- `generate_morning_ritual(moon_data, biorhythm_data)`. -/
def generate_morning_ritual (moon_data : MoonData)
    (biorhythm_data : BiorhythmData) : MorningRitualData :=
  let element := moon_data.sign_element
  let wake_time :=
    if biorhythm_data.overall_energy = "High" then "6:00 AM - Rise with energy"
    else if biorhythm_data.overall_energy = "Low" then "7:00 AM - Gentle awakening"
    else "6:30 AM - Balanced start"
  let breathwork :=
    if element = "Fire" then "Breath of Fire (Kapalabhati) - 3 minutes"
    else if element = "Earth" then "4-7-8 Breathing for grounding - 5 minutes"
    else if element = "Air" then "Alternate nostril breathing - 5 minutes"
    else if element = "Water" then "Ocean breath (Ujjayi) - 5 minutes"
    else "Deep belly breathing - 5 minutes"
  let movement :=
    if element = "Fire" then "Sun salutations - energizing flow"
    else if element = "Earth" then "Grounding yoga poses - stability focus"
    else if element = "Air" then "Dynamic stretching - varied movement"
    else if element = "Water" then "Gentle flowing yoga - fluid motion"
    else "Gentle stretching - 10 minutes"
  let t := moon_data.energy_theme.toLower
  { wake_time_suggestion := wake_time,
    intention_setting := s!"I embrace {t} today",
    breathwork := breathwork, movement := movement, duration_minutes := 20 }

structure MeditationPractice where
  technique : String
  duration_minutes : ℤ
  optimal_time : String
  focus_theme : String := ""
  mantra : Option String := none
  visualization : Option String := none
  deriving DecidableEq

/-- `generate_meditation_practice(moon_data, biorhythm_data)`. -/
def generate_meditation_practice (moon_data : MoonData)
    (biorhythm_data : BiorhythmData) : MeditationPractice :=
  let element := moon_data.sign_element
  let technique :=
    if element = "Fire" then "Candle gazing (Trataka)"
    else if element = "Earth" then "Body scan meditation"
    else if element = "Air" then "Mindfulness of thoughts"
    else if element = "Water" then "Loving-kindness meditation"
    else "Breath awareness"
  let dt :=
    if 50 < biorhythm_data.intellectual then ((25 : ℤ), "Morning or midday")
    else if 0 < biorhythm_data.intellectual then (20, "Midday")
    else (15, "Evening (shorter, gentler)")
  let mantra : Option String :=
    if element = "Fire" then some "I am powerful and radiant"
    else if element = "Earth" then some "I am grounded and secure"
    else if element = "Air" then some "I am clear and free"
    else if element = "Water" then some "I flow with life's currents"
    else none
  { technique := technique, duration_minutes := dt.1, optimal_time := dt.2,
    focus_theme := moon_data.energy_theme, mantra := mantra, visualization := none }

structure EveningRitualData where
  wind_down_time : String := ""
  screen_cutoff : String := ""
  reflection_practice : String := ""
  sleep_preparation : String := ""
  optimal_sleep_time : String := ""
  deriving DecidableEq

/-- `generate_evening_ritual(biorhythm_data)`. -/
def generate_evening_ritual (biorhythm_data : BiorhythmData) : EveningRitualData :=
  let t :=
    if biorhythm_data.overall_energy = "Low" then ("8:00 PM", "8:30 PM", "9:30 PM")
    else if biorhythm_data.overall_energy = "High" then ("9:00 PM", "9:30 PM", "10:30 PM")
    else ("8:30 PM", "9:00 PM", "10:00 PM")
  { wind_down_time := t.1, screen_cutoff := t.2.1,
    reflection_practice := "Review three wins from today",
    sleep_preparation := "Warm bath or shower, dim lights, gratitude practice",
    optimal_sleep_time := t.2.2 }

structure JournalingPrompt where
  morning_prompt : String := ""
  evening_prompt : String := ""
  theme_exploration : String := ""
  gratitude_focus : String := ""
  deriving DecidableEq

/-- `generate_journaling_prompts(moon_data, biorhythm_data)`. -/
def generate_journaling_prompts (moon_data : MoonData)
    (biorhythm_data : BiorhythmData) : JournalingPrompt :=
  let element := moon_data.sign_element
  let morning :=
    if element = "Fire" then "What bold action can I take today?"
    else if element = "Earth" then "What practical step can I take toward my goals?"
    else if element = "Air" then "What new perspective can I explore today?"
    else if element = "Water" then "What emotional truth wants to be acknowledged?"
    else "What is my intention for today?"
  let evening :=
    if element = "Fire" then "Where did I express my authentic power today?"
    else if element = "Earth" then "What did I build or accomplish today?"
    else if element = "Air" then "What new idea or connection emerged today?"
    else if element = "Water" then "What feelings flowed through me today?"
    else "What am I grateful for today?"
  let s := moon_data.zodiac_sign
  let inquiry :=
    if s = "Aries" then "Where am I holding back from starting something new?"
    else if s = "Taurus" then "What do I truly value and how am I honoring that?"
    else if s = "Gemini" then "What am I curious about that I haven't explored?"
    else if s = "Cancer" then "What does my inner child need right now?"
    else if s = "Leo" then "How can I express my creativity more fully?"
    else if s = "Virgo" then "What small improvement would make a big difference?"
    else if s = "Libra" then "Where do I need more balance in my life?"
    else if s = "Scorpio" then "What am I ready to release and transform?"
    else if s = "Sagittarius" then "What adventure is calling to me?"
    else if s = "Capricorn" then "What legacy am I building?"
    else if s = "Aquarius" then "How can I contribute to something larger than myself?"
    else if s = "Pisces" then "What does my intuition want me to know?"
    else "What wants to emerge today?"
  let gratitude :=
    if biorhythm_data.overall_energy = "Low" then "Simple blessings and basic comforts"
    else if biorhythm_data.overall_energy = "High" then "Opportunities and energy for action"
    else "Balance and present moment awareness"
  { morning_prompt := morning, evening_prompt := evening,
    theme_exploration := inquiry, gratitude_focus := gratitude }

/-! ## Profile model (`skyforge/models/profile.py`, `birth_data.py`)

`datetime` fields that the pipeline never computes with (birth time,
metadata timestamps) are modelled by opaque-to-the-pipeline `String`
renderings; the year-to-personal-year cache dict becomes an association
list. -/

structure Location where
  city : Option String := none
  latitude : Option ℚ := none
  longitude : Option ℚ := none
  timezone : String := "UTC"
  deriving DecidableEq

structure BirthData where
  date : PyDate
  time : Option String := none
  time_range : String := "unknown"
  location : Option Location := none
  deriving DecidableEq

structure ProfileMetadata where
  created_at : Option String := none
  updated_at : Option String := none
  notes : Option String := none
  deriving DecidableEq

structure UserProfile where
  name : String
  birth_data : BirthData
  current_location : Option Location := none
  life_path_number : Option ℤ := none
  human_design_type : Option String := none
  human_design_strategy : Option String := none
  human_design_authority : Option String := none
  personal_year_cache : List (ℤ × ℤ) := []
  metadata : ProfileMetadata := {}
  deriving DecidableEq

/-! ## Stub generators and orchestrator (`skyforge/generators/daily_entry.py`) -/

structure SolarTransitData where
  sun_sign : String
  house_focus : ℤ
  house_theme : String := ""
  planetary_aspects : List String := []
  transit_message : String := ""
  deriving DecidableEq

def sun_signs_table : List (ℤ × ℤ × String) :=
  [(1, 20, "Capricorn"), (2, 19, "Aquarius"), (3, 20, "Pisces"),
   (4, 20, "Aries"), (5, 21, "Taurus"), (6, 21, "Gemini"),
   (7, 22, "Cancer"), (8, 23, "Leo"), (9, 23, "Virgo"),
   (10, 23, "Libra"), (11, 22, "Scorpio"), (12, 22, "Sagittarius")]

/-- `house_themes[house_focus]` (total on 1..12 by construction). -/
def house_themes (h : ℤ) : String :=
  if h = 1 then "Self & Identity" else if h = 2 then "Resources & Values"
  else if h = 3 then "Communication & Learning" else if h = 4 then "Home & Foundation"
  else if h = 5 then "Creativity & Joy" else if h = 6 then "Health & Service"
  else if h = 7 then "Partnerships & Relationships"
  else if h = 8 then "Transformation & Shared Resources"
  else if h = 9 then "Expansion & Philosophy" else if h = 10 then "Career & Public Image"
  else if h = 11 then "Community & Aspirations" else "Spirituality & Release"

/-- `generate_solar_transit(target_date, profile)` (the profile argument is
unused by the source body). -/
def generate_solar_transit (target_date : PyDate) : SolarTransitData :=
  let month := target_date.month
  let day := target_date.day
  let sun_sign :=
    match sun_signs_table.find?
        (fun r => decide (month < r.1 ∨ (month = r.1 ∧ day ≤ r.2.1))) with
    | some r => r.2.2
    | none => "Capricorn"
  let day_of_year := target_date.dayOfYear
  let house_focus := ((day_of_year - 1).fdiv 30) % 12 + 1
  let ht := house_themes house_focus
  let htl := ht.toLower
  { sun_sign := sun_sign, house_focus := house_focus, house_theme := ht,
    planetary_aspects := [],
    transit_message := s!"Focus on {htl} matters today" }

structure GateData where
  gate_number : ℤ
  gate_name : String
  line : ℤ
  planet : String
  theme : String := ""
  deriving DecidableEq

structure HumanDesignData where
  type : String
  strategy : String
  authority : String
  active_gates : List GateData := []
  active_channels : List String := []
  defined_centers_today : List String := []
  decision_cue : String := ""
  energy_management : String := ""
  signature_theme : String := ""
  not_self_warning : String := ""
  deriving DecidableEq

/-- `strategies.get(hd_type, "Wait to respond")`. -/
def hd_strategies (t : String) : String :=
  if t = "Generator" then "Wait to respond"
  else if t = "Manifesting Generator" then "Wait to respond, then inform"
  else if t = "Projector" then "Wait for the invitation"
  else if t = "Manifestor" then "Inform before acting"
  else if t = "Reflector" then "Wait a lunar cycle"
  else "Wait to respond"

/-- `authorities.get(hd_type, "Sacral")`. -/
def hd_authorities (t : String) : String :=
  if t = "Generator" then "Sacral"
  else if t = "Manifesting Generator" then "Sacral"
  else if t = "Projector" then "Splenic or Emotional"
  else if t = "Manifestor" then "Emotional or Splenic"
  else if t = "Reflector" then "Lunar"
  else "Sacral"

/-- `authorities.get(hd_type, 'inner')` used in the decision cue. -/
def hd_authorities_inner (t : String) : String :=
  if t = "Generator" then "Sacral"
  else if t = "Manifesting Generator" then "Sacral"
  else if t = "Projector" then "Splenic or Emotional"
  else if t = "Manifestor" then "Emotional or Splenic"
  else if t = "Reflector" then "Lunar"
  else "inner"

/-- `signatures.get(hd_type, "Satisfaction")`. -/
def hd_signatures (t : String) : String :=
  if t = "Generator" then "Satisfaction"
  else if t = "Manifesting Generator" then "Satisfaction"
  else if t = "Projector" then "Success"
  else if t = "Manifestor" then "Peace"
  else if t = "Reflector" then "Surprise"
  else "Satisfaction"

/-- `not_self.get(hd_type, "Watch for frustration")`. -/
def hd_not_self (t : String) : String :=
  if t = "Generator" then "Watch for frustration if forcing actions"
  else if t = "Manifesting Generator" then
    "Watch for frustration and anger if not responding"
  else if t = "Projector" then "Watch for bitterness if not recognized"
  else if t = "Manifestor" then "Watch for anger if meeting resistance"
  else if t = "Reflector" then "Watch for disappointment if rushing decisions"
  else "Watch for frustration"

/-- `generate_human_design(target_date, profile)`. -/
def generate_human_design (target_date : PyDate) (profile : UserProfile) :
    HumanDesignData :=
  let hd_type := pyOr profile.human_design_type "Generator"
  let day_of_year := target_date.dayOfYear
  let base_gate := (day_of_year * 7) % 64 + 1
  let gn := base_gate
  let auth := hd_authorities_inner hd_type
  { type := hd_type, strategy := hd_strategies hd_type,
    authority := pyOr profile.human_design_authority (hd_authorities hd_type),
    active_gates := [{ gate_number := base_gate, gate_name := s!"Gate {gn}",
                       line := day_of_year % 6 + 1, planet := "Sun",
                       theme := "Daily activation" }],
    active_channels := [], defined_centers_today := [],
    decision_cue := s!"Trust your {auth} response",
    energy_management := "Honor your energy type's natural rhythm",
    signature_theme := hd_signatures hd_type,
    not_self_warning := hd_not_self hd_type }

structure IChingData where
  hexagram_number : ℤ
  hexagram_name : String
  trigram_above : String
  trigram_below : String
  judgment : String := ""
  image : String := ""
  changing_lines : List ℤ := []
  moving_to : Option ℤ := none
  daily_wisdom : String := ""
  action_guidance : String := ""
  caution : String := ""
  deriving DecidableEq

def trigrams : List String :=
  ["Heaven", "Earth", "Thunder", "Water", "Mountain", "Wind", "Fire", "Lake"]

/-- `generate_i_ching(human_design)`. -/
def generate_i_ching (human_design : HumanDesignData) : IChingData :=
  let sun_gate :=
    match human_design.active_gates.find? (fun g => g.planet = "Sun") with
    | some g => some g
    | none => human_design.active_gates.head?
  let hexagram_num := match sun_gate with | some g => g.gate_number | none => 1
  let hn := hexagram_num
  let hexagram_name :=
    if hexagram_num = 1 then "The Creative"
    else if hexagram_num = 2 then "The Receptive"
    else s!"Hexagram {hn}"
  let upper := trigrams.getD ((hexagram_num - 1).fdiv 8).toNat ""
  let lower := trigrams.getD ((hexagram_num - 1) % 8).toNat ""
  { hexagram_number := hexagram_num, hexagram_name := hexagram_name,
    trigram_above := upper, trigram_below := lower,
    judgment := "Contemplate the day's energy and act accordingly",
    image := "The wise one aligns with natural rhythms",
    changing_lines := match sun_gate with | some g => [g.line] | none => [],
    moving_to := none,
    daily_wisdom := "Flow with today's energy rather than against it",
    action_guidance := "Take aligned action when the moment is right",
    caution := "Avoid forcing outcomes" }

structure SpiritualReading where
  source_type : String
  tradition : String
  source_title : String
  source_author : String
  chapter_or_verse : String := ""
  reading_text : String := ""
  daily_relevance : String := ""
  contemplation_question : String := ""
  embodiment_practice : String := ""
  deriving DecidableEq

/-- `generate_spiritual_reading(moon_data, numerology_data, day_of_year)`
(the numerology argument is unused by the source body). -/
def generate_spiritual_reading (moon_data : MoonData) (day_of_year : ℤ) :
    SpiritualReading :=
  let element := moon_data.sign_element
  let src :=
    if element = "Fire" then ("Meditations", "Marcus Aurelius", "Stoic", "book")
    else if element = "Earth" then ("Tao Te Ching", "Lao Tzu", "Taoist", "book")
    else if element = "Air" then ("Dhammapada", "Buddha", "Buddhist", "scripture")
    else if element = "Water" then ("Poetry Collection", "Rumi", "Sufi", "poetry")
    else ("Tao Te Ching", "Lao Tzu", "Taoist", "book")
  let tradition := src.2.2.1
  let text :=
    if tradition = "Stoic" then
      "\"Begin each day by telling yourself: Today I shall meet people who are meddling, ungrateful, arrogant, dishonest, jealous, and surly.\""
    else if tradition = "Taoist" then
      "\"The Tao that can be told is not the eternal Tao. The name that can be named is not the eternal name.\""
    else if tradition = "Buddhist" then
      "\"Mind is the forerunner of all actions. All deeds are led by mind, created by mind.\""
    else if tradition = "Sufi" then
      "\"Out beyond ideas of wrongdoing and rightdoing, there is a field. I will meet you there.\""
    else "Wisdom awaits in stillness."
  let doy := day_of_year
  let etl := moon_data.energy_theme.toLower
  { source_type := src.2.2.2, tradition := tradition, source_title := src.1,
    source_author := src.2.1,
    chapter_or_verse := s!"Day {doy} selection",
    reading_text := text,
    daily_relevance := s!"This {tradition} wisdom aligns with today's {element} energy",
    contemplation_question := s!"How does this ancient wisdom apply to {etl}?",
    embodiment_practice := "Pause three times today to recall this wisdom" }

/-- `synthesize_daily_theme(moon_data, numerology_data, human_design)`
(the human-design argument is unused by the source body). -/
def synthesize_daily_theme (moon_data : MoonData)
    (numerology_data : NumerologyData) : String :=
  let moon_theme := moon_data.energy_theme
  let num_theme := (numerology_data.day_theme.splitOn " & ").headD ""
  s!"{moon_theme} with {num_theme}"

structure PowerHour where
  time_range : String
  optimal_for : List String := []
  energy_type : String := ""
  deriving DecidableEq

/-- `generate_power_hours(biorhythm_data, moon_data)`. -/
def generate_power_hours (biorhythm_data : BiorhythmData) : List PowerHour :=
  let hours :=
    (if 30 < biorhythm_data.physical then
      [{ time_range := "7:00 AM - 10:00 AM",
         optimal_for := ["Exercise", "Physical tasks", "Active work"],
         energy_type := "Physical energy peak" : PowerHour }] else []) ++
    (if 30 < biorhythm_data.intellectual then
      [{ time_range := "10:00 AM - 1:00 PM",
         optimal_for := ["Complex thinking", "Important decisions", "Learning"],
         energy_type := "Mental clarity peak" : PowerHour }] else []) ++
    (if 20 < biorhythm_data.emotional ∧ 20 < biorhythm_data.intellectual then
      [{ time_range := "3:00 PM - 6:00 PM",
         optimal_for := ["Creative projects", "Collaboration", "Expression"],
         energy_type := "Creative synthesis" : PowerHour }] else [])
  if hours = [] then
    [{ time_range := "When energy feels best",
       optimal_for := ["Routine tasks", "Self-paced work"],
       energy_type := "Moderate energy day" }]
  else hours

structure CautionPeriod where
  time_range : String
  reason : String := ""
  avoid : List String := []
  instead_do : List String := []
  deriving DecidableEq

/-- `generate_caution_periods(moon_data, biorhythm_data)`.  The VOC branch
formats `voc_start`/`voc_end` (modelled as their rendered strings). -/
def generate_caution_periods (moon_data : MoonData)
    (biorhythm_data : BiorhythmData) : List CautionPeriod :=
  (match moon_data.moon_void_of_course, moon_data.voc_start with
   | true, some vs =>
     let ve := match moon_data.voc_end with | some e => e | none => "end of day"
     [{ time_range := s!"VOC: {vs} - {ve}",
        reason := "Moon Void of Course",
        avoid := ["Starting new projects", "Major purchases", "Important decisions"],
        instead_do := ["Routine tasks", "Review work", "Rest"] : CautionPeriod }]
   | _, _ => []) ++
  (if biorhythm_data.intellectual < -20 then
    [{ time_range := "Afternoon (1:00 PM - 4:00 PM)",
       reason := "Mental energy low",
       avoid := ["Complex analysis", "Important negotiations"],
       instead_do := ["Physical tasks", "Routine work"] }]
   else [])

/-- `generate_affirmation(daily_theme, moon_data)` (the theme argument is
unused by the source body). -/
def generate_affirmation (moon_data : MoonData) : String :=
  let element := moon_data.sign_element
  if element = "Fire" then "I embrace my power and shine brightly"
  else if element = "Earth" then "I build my dreams with patient, steady hands"
  else if element = "Air" then "I welcome new ideas and connections with an open mind"
  else if element = "Water" then "I flow with life's currents and trust my intuition"
  else "I am aligned with my highest path"

/-- `generate_mantra(i_ching)`. -/
def generate_mantra (i_ching : IChingData) : String :=
  let hn := i_ching.hexagram_name
  s!"I embody the wisdom of {hn}"

structure DailyPreparation where
  date : PyDate
  day_of_week : String
  day_of_year : ℤ
  moon : MoonData
  solar_transit : SolarTransitData
  numerology : NumerologyData
  human_design : HumanDesignData
  i_ching : IChingData
  biorhythm : BiorhythmData
  risk_analysis : RiskAnalysisData
  morning_ritual : MorningRitualData
  exercise : ExerciseRecommendation
  nourishment : NourishmentGuidance
  meditation : MeditationPractice
  journaling : JournalingPrompt
  spiritual_reading : SpiritualReading
  evening_ritual : EveningRitualData
  daily_theme : String
  theme_keywords : List String
  power_hours : List PowerHour
  caution_periods : List CautionPeriod
  affirmation : String
  daily_mantra : String
  closing_reflection : String
  tomorrow_preview : String
  deriving DecidableEq

/-- `calculate_moon_data`: without the optional `swisseph` package the
import-time alias resolves to the simplified engine. -/
def calculate_moon_data (sinDeg : ℚ → ℚ) (target_date : PyDate) : MoonData :=
  calculate_moon_data_for_day sinDeg target_date

/-- `generate_daily_entry(target_date, profile)`.  The in-place fill of the
profile's `life_path_number` cache is made explicit: the function returns
the assembled `DailyPreparation` together with the profile post-state. -/
def generate_daily_entry (sinDeg : ℚ → ℚ) (target_date : PyDate)
    (profile : UserProfile) : DailyPreparation × UserProfile :=
  let life_path :=
    match profile.life_path_number with
    | none => calculate_life_path profile.birth_data.date
    | some v => v
  let profile := { profile with life_path_number := some life_path }
  let moon_data := calculate_moon_data sinDeg target_date
  let numerology_data :=
    calculate_numerology_for_day profile.birth_data.date target_date
      profile.life_path_number
  let biorhythm_data :=
    calculate_biorhythm_for_day sinDeg profile.birth_data.date target_date
  let solar_transit := generate_solar_transit target_date
  let human_design := generate_human_design target_date profile
  let i_ching := generate_i_ching human_design
  let risk_analysis := calculate_risk_analysis moon_data biorhythm_data numerology_data
  let exercise := generate_exercise_recommendation biorhythm_data moon_data
  let nourishment := generate_nourishment_guidance moon_data biorhythm_data
  let morning_ritual := generate_morning_ritual moon_data biorhythm_data
  let meditation := generate_meditation_practice moon_data biorhythm_data
  let journaling := generate_journaling_prompts moon_data biorhythm_data
  let spiritual_reading :=
    generate_spiritual_reading moon_data target_date.dayOfYear
  let evening_ritual := generate_evening_ritual biorhythm_data
  let daily_theme := synthesize_daily_theme moon_data numerology_data
  let power_hours := generate_power_hours biorhythm_data
  let caution_periods := generate_caution_periods moon_data biorhythm_data
  let affirmation := generate_affirmation moon_data
  let mantra := generate_mantra i_ching
  let keywords := [moon_data.sign_element, numerology_data.energy_quality,
                   human_design.signature_theme]
  let etl := moon_data.energy_theme.toLower
  let closing := s!"Rest well knowing you honored {etl} today"
  ({ date := target_date,
     day_of_week := target_date.weekdayName,
     day_of_year := target_date.dayOfYear,
     moon := moon_data, solar_transit := solar_transit,
     numerology := numerology_data, human_design := human_design,
     i_ching := i_ching, biorhythm := biorhythm_data,
     risk_analysis := risk_analysis, morning_ritual := morning_ritual,
     exercise := exercise, nourishment := nourishment,
     meditation := meditation, journaling := journaling,
     spiritual_reading := spiritual_reading, evening_ritual := evening_ritual,
     daily_theme := daily_theme, theme_keywords := keywords,
     power_hours := power_hours, caution_periods := caution_periods,
     affirmation := affirmation, daily_mantra := mantra,
     closing_reflection := closing,
     tomorrow_preview := "New energies await tomorrow - trust the unfolding" },
   profile)

/-! ## REST range route (`skskyforge/web/routers/__init__.py`) -/

structure RangeRequest where
  start_date : PyDate
  end_date : PyDate
  profile_name : String
  deriving DecidableEq

/-- The observable outcomes of `POST /generate/range`: an
`HTTPException(422)`, an `HTTPException(404)` raised by `_load_profile`, or
the list of serialized reports. -/
inductive RangeResult where
  | unprocessable (detail : String) : RangeResult
  | notFound (detail : String) : RangeResult
  | ok (entries : List DailyPreparation) : RangeResult
  deriving DecidableEq

/-- `_generate_entries(profile, start, end)`: the `while current <= end`
loop rendered as recursion on the inclusive day count, advancing `current`
one calendar day per iteration and threading the (possibly mutated)
profile through, as the source loop does. -/
def _generate_entries (sinDeg : ℚ → ℚ) (profile : UserProfile) (current : PyDate) :
    ℕ → List DailyPreparation × UserProfile
  | 0 => ([], profile)
  | n + 1 =>
    let r := generate_daily_entry sinDeg current profile
    let rest := _generate_entries sinDeg r.2 current.next n
    (r.1 :: rest.1, rest.2)

/-- The profiles directory, modelled as an association list from profile
name to the stored profile; `_load_profile` becomes a lookup. -/
def generate_range (sinDeg : ℚ → ℚ) (profiles : List (String × UserProfile))
    (req : RangeRequest) : RangeResult :=
  if req.end_date.toOrdinal < req.start_date.toOrdinal then
    .unprocessable "end_date must be >= start_date"
  else
    let days := req.end_date.toOrdinal - req.start_date.toOrdinal + 1
    if 366 < days then .unprocessable "Range must not exceed 366 days"
    else
      match profiles.lookup req.profile_name with
      | none => .notFound (req.profile_name)
      | some profile =>
        .ok (_generate_entries sinDeg profile req.start_date days.toNat).1

/-! ## CSV exporter (`skskyforge/exporters/csv_exporter.py`) -/

/-- A cell value of the flattened row dict, before `csv` stringifies it. -/
inductive CsvValue where
  | str (s : String) : CsvValue
  | int (n : ℤ) : CsvValue
  | rat (q : ℚ) : CsvValue
  | bool (b : Bool) : CsvValue
  deriving DecidableEq

/-- Python `str()` as the `csv` module applies it to a cell. -/
def csvCell : CsvValue → String
  | .str s => s
  | .int n => toString n
  | .rat q => toString q
  | .bool b => if b then "True" else "False"

/-- `"; ".join` over the formatted gate list. -/
def joinGates (gates : List GateData) : String :=
  String.intercalate "; "
    (gates.map (fun g =>
      let p := g.planet
      let n := g.gate_number
      let l := g.line
      s!"{p}:G{n}L{l}"))

/-- `_entry_to_row(entry)`: the ordered field-name/value dict. -/
def _entry_to_row (entry : DailyPreparation) : List (String × CsvValue) :=
  [("date", .str (toString entry.date.year ++ "-" ++ toString entry.date.month ++
      "-" ++ toString entry.date.day)),
   ("day_of_week", .str entry.day_of_week),
   ("day_of_year", .int entry.day_of_year),
   ("daily_theme", .str entry.daily_theme),
   ("moon_phase", .str entry.moon.phase),
   ("moon_illumination", .rat entry.moon.phase_percentage),
   ("moon_sign", .str entry.moon.zodiac_sign),
   ("moon_element", .str entry.moon.sign_element),
   ("moon_modality", .str entry.moon.sign_modality),
   ("moon_voc", .bool entry.moon.moon_void_of_course),
   ("moon_energy_theme", .str entry.moon.energy_theme),
   ("sun_sign", .str entry.solar_transit.sun_sign),
   ("house_focus", .int entry.solar_transit.house_focus),
   ("house_theme", .str entry.solar_transit.house_theme),
   ("planetary_aspects", .str (String.intercalate "; " entry.solar_transit.planetary_aspects)),
   ("life_path", .int entry.numerology.life_path),
   ("personal_year", .int entry.numerology.personal_year),
   ("personal_month", .int entry.numerology.personal_month),
   ("personal_day", .int entry.numerology.personal_day),
   ("universal_day", .int entry.numerology.universal_day),
   ("num_day_theme", .str entry.numerology.day_theme),
   ("energy_quality", .str entry.numerology.energy_quality),
   ("hd_type", .str entry.human_design.type),
   ("hd_strategy", .str entry.human_design.strategy),
   ("hd_authority", .str entry.human_design.authority),
   ("hd_gates", .str (joinGates entry.human_design.active_gates)),
   ("hd_signature", .str entry.human_design.signature_theme),
   ("hexagram_number", .int entry.i_ching.hexagram_number),
   ("hexagram_name", .str entry.i_ching.hexagram_name),
   ("bio_physical", .rat entry.biorhythm.physical),
   ("bio_emotional", .rat entry.biorhythm.emotional),
   ("bio_intellectual", .rat entry.biorhythm.intellectual),
   ("bio_overall_energy", .str entry.biorhythm.overall_energy),
   ("risk_level", .str entry.risk_analysis.overall_risk_level),
   ("affirmation", .str entry.affirmation),
   ("mantra", .str entry.daily_mantra)]

/-- `export_csv(entries, output_path)`, modelled as the list of rows the
function writes to the file.  On an empty entry list the source returns
before opening the file, so nothing at all is written — not even the
header row. -/
def export_csv (entries : List DailyPreparation) : List (List String) :=
  if entries.isEmpty then []
  else
    let rows := entries.map _entry_to_row
    let fieldnames := (rows.headD []).map Prod.fst
    fieldnames :: rows.map (fun r => r.map (fun kv => csvCell kv.2))

/-! ## Fixtures for concrete evaluations (mirroring the factory helpers of
`tests/test_analyzers/test_risk.py` and `tests/test_exporters`). -/

def moonFixture (voc : Bool) : MoonData :=
  { phase := "Full Moon", phase_percentage := 100, zodiac_sign := "Aries",
    sign_element := "Fire", sign_modality := "Cardinal",
    moon_void_of_course := voc, energy_theme := "Action",
    optimal_activities := ["test"], avoid_activities := ["test"] }

def bioFixture (physical emotional intellectual : ℚ)
    (pc ec ic : Bool) : BiorhythmData :=
  { physical := physical, emotional := emotional, intellectual := intellectual,
    physical_phase := "High", emotional_phase := "High",
    intellectual_phase := "High", physical_critical := pc,
    emotional_critical := ec, intellectual_critical := ic,
    overall_energy := "Moderate", best_for := ["focus work"] }

def numFixture (personal_day : ℤ) : NumerologyData :=
  { life_path := 5, personal_year := 3, personal_month := 6,
    personal_day := personal_day, universal_day := 8,
    day_theme := "Action", energy_quality := "Active" }

def sampleProfile : UserProfile :=
  { name := "export-test", birth_data := { date := ⟨1990, 6, 15⟩ } }

/-! ## Claim theorems -/

/-- Claim C2 (counterexample): with a neutral moon and biorhythm and
`personal_day = 7`, the numerology condition raises the spiritual score to 1
but the warnings list stays empty, so not every scoring condition appends a
warning and the warning count differs from the triggered-condition count. -/
theorem C2_counterexample :
    (calculate_risk_analysis (moonFixture false)
        (bioFixture 50 50 50 false false false) (numFixture 7)).spiritual_risk = 1 ∧
    (calculate_risk_analysis (moonFixture false)
        (bioFixture 50 50 50 false false false) (numFixture 7)).warnings = [] := by
  decide

/-- Claim C2 (amended): every scoring condition of `calculate_risk_analysis`
except the personal-day-in-{4,7,9} numerology condition appends exactly one
structured warning; for every input the warnings list length equals the
number of triggered non-numerology conditions (the numerology condition
adjusts a score silently). -/
theorem C2_risk_warning_count (m : MoonData) (b : BiorhythmData) (n : NumerologyData) :
    (calculate_risk_analysis m b n).warnings.length =
      ((if m.moon_void_of_course then 1 else 0) +
       (if b.physical_critical then 1 else 0) +
       (if b.physical < -50 then 1 else 0) +
       (if b.emotional_critical then 1 else 0) +
       (if b.emotional < -50 then 1 else 0) +
       (if b.intellectual_critical then 1 else 0) +
       (if b.intellectual < -50 then 1 else 0)) := by
  simp only [calculate_risk_analysis, List.length_append,
    apply_ite (List.length (α := RiskWarning)), List.length_singleton,
    List.length_nil]

/-- Claim C3 (counterexample): an input with no void-of-course moon, no
critical biorhythm cycle and `personal_day = 1` but `physical = -60`
triggers the physical-low condition, so the warnings list is not empty —
the claim omits the biorhythm-below-minus-50 conditions. -/
theorem C3_counterexample :
    (moonFixture false).moon_void_of_course = false ∧
    (bioFixture (-60) 50 50 false false false).physical_critical = false ∧
    (bioFixture (-60) 50 50 false false false).emotional_critical = false ∧
    (bioFixture (-60) 50 50 false false false).intellectual_critical = false ∧
    (numFixture 1).personal_day ∉ challenging_numbers ∧
    (calculate_risk_analysis (moonFixture false)
        (bioFixture (-60) 50 50 false false false) (numFixture 1)).warnings ≠ [] := by
  decide

/-- Claim C3 (amended): for every input with `moon_void_of_course` false, no
biorhythm cycle critical, every biorhythm value at least −50, and
`personal_day` not in {4,7,9}, `calculate_risk_analysis` yields
`overall_risk_level = "Low"`, an empty warnings list, and exactly the fixed
default protective-practice pair. -/
theorem C3_risk_all_neutral (m : MoonData) (b : BiorhythmData) (n : NumerologyData)
    (h1 : m.moon_void_of_course = false)
    (h2 : b.physical_critical = false) (h3 : b.emotional_critical = false)
    (h4 : b.intellectual_critical = false)
    (h5 : ¬ b.physical < -50) (h6 : ¬ b.emotional < -50)
    (h7 : ¬ b.intellectual < -50)
    (h8 : n.personal_day ∉ challenging_numbers) :
    (calculate_risk_analysis m b n).overall_risk_level = "Low" ∧
    (calculate_risk_analysis m b n).warnings = [] ∧
    (calculate_risk_analysis m b n).protective_practices =
      ["Standard self-care practices", "Mindful awareness"] := by
  simp [calculate_risk_analysis, h1, h2, h3, h4, h5, h6, h7, h8, round1, bround]

/-- Claim C3 witness: the amended theorem at the all-neutral fixture. -/
theorem C3_witness :
    (calculate_risk_analysis (moonFixture false)
        (bioFixture 50 50 50 false false false) (numFixture 1)).overall_risk_level = "Low" ∧
    (calculate_risk_analysis (moonFixture false)
        (bioFixture 50 50 50 false false false) (numFixture 1)).warnings = [] ∧
    (calculate_risk_analysis (moonFixture false)
        (bioFixture 50 50 50 false false false) (numFixture 1)).protective_practices =
      ["Standard self-care practices", "Mindful awareness"] :=
  C3_risk_all_neutral _ _ _ (by decide) (by decide) (by decide) (by decide)
    (by norm_num [bioFixture]) (by norm_num [bioFixture]) (by norm_num [bioFixture])
    (by decide)

/-- Claim C4 (confirmed): `get_cycle_phase` classifies `Critical` whenever
`|v| ≤ 5`, and otherwise resolves the bands by priority into the disjoint
intervals Peak `(80,∞)`, High `(50,80]`, Rising `(5,50]`, Falling
`(-50,-5)`, Low `(-80,-50]`, Valley `(-∞,-80]`; in particular `85 → Peak`,
`60 → High`, `3 → Critical`, `-85 → Valley`, and each exact threshold value
80, 50, 5, -50 and -80 falls into the lower band. -/
theorem C4_get_cycle_phase_bands (v : ℚ) :
    (|v| ≤ 5 → get_cycle_phase v = "Critical") ∧
    (5 < |v| → 80 < v → get_cycle_phase v = "Peak") ∧
    (5 < |v| → 50 < v → v ≤ 80 → get_cycle_phase v = "High") ∧
    (5 < |v| → 0 < v → v ≤ 50 → get_cycle_phase v = "Rising") ∧
    (5 < |v| → -50 < v → v ≤ 0 → get_cycle_phase v = "Falling") ∧
    (5 < |v| → -80 < v → v ≤ -50 → get_cycle_phase v = "Low") ∧
    (5 < |v| → v ≤ -80 → get_cycle_phase v = "Valley") ∧
    get_cycle_phase 85 = "Peak" ∧ get_cycle_phase 60 = "High" ∧
    get_cycle_phase 3 = "Critical" ∧ get_cycle_phase (-85) = "Valley" ∧
    get_cycle_phase 80 = "High" ∧ get_cycle_phase 50 = "Rising" ∧
    get_cycle_phase 5 = "Critical" ∧ get_cycle_phase (-50) = "Low" ∧
    get_cycle_phase (-80) = "Valley" := by
  refine ⟨?_, ?_, ?_, ?_, ?_, ?_, ?_, by decide, by decide, by decide,
    by decide, by decide, by decide, by decide, by decide, by decide⟩ <;>
    (intros; unfold get_cycle_phase CRITICAL_THRESHOLD;
     split_ifs <;> first | rfl | linarith)

/-- Claim C4 witness: the band characterization applied at `60`. -/
theorem C4_witness : get_cycle_phase 60 = "High" :=
  (C4_get_cycle_phase_bands 60).2.2.1 (by norm_num) (by norm_num) (by norm_num)

/-- Claim C5 (counterexample): the function is not 360-periodic on negative
longitudes, because Python `int()` truncates toward zero there: `-10` maps
to `Aries` while `-10 + 360 = 350` maps to `Pisces`. -/
theorem C5_counterexample :
    get_zodiac_sign_from_longitude (-10) ≠
      get_zodiac_sign_from_longitude (-10 + 360) := by
  norm_num [get_zodiac_sign_from_longitude, pyint, ZODIAC_SIGNS]
  decide

/-- Claim C5 (amended): for every longitude `x ≥ 0`,
`get_zodiac_sign_from_longitude (x + 360) = get_zodiac_sign_from_longitude x`,
and the 30°-wide bands meet the fixed 12-sign order exactly at the
boundaries `0 → Aries`, `30 → Taurus`, …, `330 → Pisces`. -/
theorem C5_zodiac_periodic_nonneg (x : ℚ) (hx : 0 ≤ x) :
    get_zodiac_sign_from_longitude (x + 360) = get_zodiac_sign_from_longitude x ∧
    get_zodiac_sign_from_longitude 0 = "Aries" ∧
    get_zodiac_sign_from_longitude 30 = "Taurus" ∧
    get_zodiac_sign_from_longitude 60 = "Gemini" ∧
    get_zodiac_sign_from_longitude 90 = "Cancer" ∧
    get_zodiac_sign_from_longitude 120 = "Leo" ∧
    get_zodiac_sign_from_longitude 150 = "Virgo" ∧
    get_zodiac_sign_from_longitude 180 = "Libra" ∧
    get_zodiac_sign_from_longitude 210 = "Scorpio" ∧
    get_zodiac_sign_from_longitude 240 = "Sagittarius" ∧
    get_zodiac_sign_from_longitude 270 = "Capricorn" ∧
    get_zodiac_sign_from_longitude 300 = "Aquarius" ∧
    get_zodiac_sign_from_longitude 330 = "Pisces" := by
  refine ⟨?_,
    by norm_num [get_zodiac_sign_from_longitude, pyint, ZODIAC_SIGNS] <;> decide,
    by norm_num [get_zodiac_sign_from_longitude, pyint, ZODIAC_SIGNS] <;> decide,
    by norm_num [get_zodiac_sign_from_longitude, pyint, ZODIAC_SIGNS] <;> decide,
    by norm_num [get_zodiac_sign_from_longitude, pyint, ZODIAC_SIGNS] <;> decide,
    by norm_num [get_zodiac_sign_from_longitude, pyint, ZODIAC_SIGNS] <;> decide,
    by norm_num [get_zodiac_sign_from_longitude, pyint, ZODIAC_SIGNS] <;> decide,
    by norm_num [get_zodiac_sign_from_longitude, pyint, ZODIAC_SIGNS] <;> decide,
    by norm_num [get_zodiac_sign_from_longitude, pyint, ZODIAC_SIGNS] <;> decide,
    by norm_num [get_zodiac_sign_from_longitude, pyint, ZODIAC_SIGNS] <;> decide,
    by norm_num [get_zodiac_sign_from_longitude, pyint, ZODIAC_SIGNS] <;> decide,
    by norm_num [get_zodiac_sign_from_longitude, pyint, ZODIAC_SIGNS] <;> decide,
    by norm_num [get_zodiac_sign_from_longitude, pyint, ZODIAC_SIGNS] <;> decide⟩
  unfold get_zodiac_sign_from_longitude pyint
  have h1 : (0:ℚ) ≤ x / 30 := by positivity
  have h2 : (0:ℚ) ≤ (x + 360) / 30 := by positivity
  rw [if_pos h1, if_pos h2]
  have h3 : (x + 360) / 30 = x / 30 + ((12 : ℤ) : ℚ) := by push_cast; ring
  have h4 : (⌊x / 30⌋ + 12) % 12 = ⌊x / 30⌋ % 12 := by omega
  rw [h3, Int.floor_add_int, h4]

/-- Claim C5 witness: the amended theorem applied at `x = 45`. -/
theorem C5_witness :
    get_zodiac_sign_from_longitude (45 + 360) = get_zodiac_sign_from_longitude 45 :=
  (C5_zodiac_periodic_nonneg 45 (by norm_num)).1

/-- Claim C9 (counterexample): on an empty entry list `export_csv` returns
before opening the file, so zero rows are written — not the claimed
`N + 1 = 1` header row. -/
theorem C9_counterexample :
    (export_csv ([] : List DailyPreparation)).length ≠
      ([] : List DailyPreparation).length + 1 := by
  decide

/-- Claim C9 (amended): for every non-empty list of `N` daily entries,
`export_csv` writes exactly `N + 1` rows — the header row followed by one
flattened data row per entry, in the same order as the input list (hence in
ascending date order when the input is date-ordered); for `N = 0` nothing
is written at all. -/
theorem C9_export_csv_rows (entries : List DailyPreparation) (h : entries ≠ []) :
    (export_csv entries).length = entries.length + 1 ∧
    export_csv entries =
      ((entries.map _entry_to_row).headD []).map Prod.fst ::
        (entries.map _entry_to_row).map (fun r => r.map (fun kv => csvCell kv.2)) ∧
    export_csv ([] : List DailyPreparation) = [] := by
  unfold export_csv
  rw [if_neg (by simpa using h)]
  refine ⟨by simp, rfl, by simp⟩

/-- Claim C9 witness: the amended theorem applied to a one-entry list. -/
theorem C9_witness :
    (export_csv [(generate_daily_entry (fun _ => 0) ⟨2026, 3, 1⟩ sampleProfile).1]).length =
      [(generate_daily_entry (fun _ => 0) ⟨2026, 3, 1⟩ sampleProfile).1].length + 1 :=
  (C9_export_csv_rows _ (by simp)).1

/-- Claim C10 (confirmed): when the profile's `human_design_type` is `None`,
`generate_human_design` silently defaults the type to `Generator` with
strategy `Wait to respond`, and when `human_design_authority` is also
`None` the authority defaults to `Sacral`. -/
theorem C10_human_design_defaults (d : PyDate) (p : UserProfile)
    (h : p.human_design_type = none) :
    (generate_human_design d p).type = "Generator" ∧
    (generate_human_design d p).strategy = "Wait to respond" ∧
    (p.human_design_authority = none →
      (generate_human_design d p).authority = "Sacral") := by
  refine ⟨?_, ?_, fun h2 => ?_⟩ <;>
    simp [generate_human_design, pyOr, h, hd_strategies, hd_authorities, *]

/-- Claim C10 witness: the defaulting theorem at a concrete date and the
sample profile, whose Human Design fields are all `None`. -/
theorem C10_witness :
    (generate_human_design ⟨2026, 1, 15⟩ sampleProfile).type = "Generator" ∧
    (generate_human_design ⟨2026, 1, 15⟩ sampleProfile).strategy = "Wait to respond" ∧
    (generate_human_design ⟨2026, 1, 15⟩ sampleProfile).authority = "Sacral" := by
  have h := C10_human_design_defaults ⟨2026, 1, 15⟩ sampleProfile rfl
  exact ⟨h.1, h.2.1, h.2.2 rfl⟩

/-- Claim C6 (confirmed): `generate_daily_entry` is deterministic across the
lazy life-path cache fill: running it on a profile that an earlier
invocation (for any date) has already mutated produces exactly the same
`DailyPreparation` as running it on the original profile, because the
cached value coincides with the recomputed one.  (The embedding carries no
wall-clock field, so the whole record is compared.) -/
theorem C6_generate_daily_entry_deterministic (sinDeg : ℚ → ℚ) (d d' : PyDate)
    (p : UserProfile) :
    (generate_daily_entry sinDeg d ((generate_daily_entry sinDeg d' p).2)).1 =
      (generate_daily_entry sinDeg d p).1 := by
  obtain ⟨name, bd, cl, lpn, hdt, hds, hda, pyc, md⟩ := p
  cases lpn <;> rfl

/-- Claim C7 (confirmed): `generate_daily_entry` changes at most the
profile's `life_path_number` field — filling it with
`calculate_life_path(birth_data.date)` when it was `None` and leaving it
unchanged otherwise — while every other profile field is identical before
and after the call. -/
theorem C7_generate_daily_entry_frame (sinDeg : ℚ → ℚ) (d : PyDate)
    (p : UserProfile) :
    (generate_daily_entry sinDeg d p).2.name = p.name ∧
    (generate_daily_entry sinDeg d p).2.birth_data = p.birth_data ∧
    (generate_daily_entry sinDeg d p).2.current_location = p.current_location ∧
    (generate_daily_entry sinDeg d p).2.human_design_type = p.human_design_type ∧
    (generate_daily_entry sinDeg d p).2.human_design_strategy = p.human_design_strategy ∧
    (generate_daily_entry sinDeg d p).2.human_design_authority = p.human_design_authority ∧
    (generate_daily_entry sinDeg d p).2.personal_year_cache = p.personal_year_cache ∧
    (generate_daily_entry sinDeg d p).2.metadata = p.metadata ∧
    (generate_daily_entry sinDeg d p).2.life_path_number =
      some (p.life_path_number.getD (calculate_life_path p.birth_data.date)) := by
  obtain ⟨name, bd, cl, lpn, hdt, hds, hda, pyc, md⟩ := p
  cases lpn <;>
    exact ⟨rfl, rfl, rfl, rfl, rfl, rfl, rfl, rfl, rfl⟩

theorem _generate_entries_length (sinDeg : ℚ → ℚ) (p : UserProfile)
    (c : PyDate) (n : ℕ) : (_generate_entries sinDeg p c n).1.length = n := by
  induction n generalizing p c with
  | zero => rfl
  | succ k ih => simp [_generate_entries, ih]

/-- Claim C8 (confirmed): `POST /generate/range` returns 422 when
`end_date < start_date`, 422 when the inclusive day span exceeds 366 days,
404 when the named profile does not exist (checked after the two
validations, as in the source), and otherwise one report per day of the
inclusive range. -/
theorem C8_generate_range_status (sinDeg : ℚ → ℚ)
    (profiles : List (String × UserProfile)) (req : RangeRequest) :
    (req.end_date.toOrdinal < req.start_date.toOrdinal →
      generate_range sinDeg profiles req =
        .unprocessable "end_date must be >= start_date") ∧
    (req.start_date.toOrdinal ≤ req.end_date.toOrdinal →
      366 < req.end_date.toOrdinal - req.start_date.toOrdinal + 1 →
      generate_range sinDeg profiles req =
        .unprocessable "Range must not exceed 366 days") ∧
    (req.start_date.toOrdinal ≤ req.end_date.toOrdinal →
      req.end_date.toOrdinal - req.start_date.toOrdinal + 1 ≤ 366 →
      profiles.lookup req.profile_name = none →
      generate_range sinDeg profiles req = .notFound req.profile_name) ∧
    (∀ p, req.start_date.toOrdinal ≤ req.end_date.toOrdinal →
      req.end_date.toOrdinal - req.start_date.toOrdinal + 1 ≤ 366 →
      profiles.lookup req.profile_name = some p →
      ∃ es, generate_range sinDeg profiles req = .ok es ∧
        es.length = (req.end_date.toOrdinal - req.start_date.toOrdinal + 1).toNat) := by
  refine ⟨fun h1 => ?_, fun h1 h2 => ?_, fun h1 h2 h3 => ?_, fun p h1 h2 h3 => ?_⟩
  · unfold generate_range
    rw [if_pos h1]
  · unfold generate_range
    rw [if_neg (by omega), if_pos h2]
  · unfold generate_range
    rw [if_neg (by omega), if_neg (by omega), h3]
  · refine ⟨_, ?_, _generate_entries_length sinDeg p req.start_date _⟩
    unfold generate_range
    rw [if_neg (by omega), if_neg (by omega), h3]

/-- Claim C8 witness: the 422 branch at a reversed concrete range, and the
success branch producing three reports for a concrete three-day range. -/
theorem C8_witness :
    generate_range (fun _ => 0) [("export-test", sampleProfile)]
      ⟨⟨2026, 1, 5⟩, ⟨2026, 1, 2⟩, "export-test"⟩ =
        .unprocessable "end_date must be >= start_date" ∧
    ∃ es, generate_range (fun _ => 0) [("export-test", sampleProfile)]
      ⟨⟨2026, 1, 1⟩, ⟨2026, 1, 3⟩, "export-test"⟩ = .ok es ∧
      es.length = ((⟨2026, 1, 3⟩ : PyDate).toOrdinal -
        (⟨2026, 1, 1⟩ : PyDate).toOrdinal + 1).toNat := by
  constructor
  · exact (C8_generate_range_status (fun _ => 0) [("export-test", sampleProfile)]
      ⟨⟨2026, 1, 5⟩, ⟨2026, 1, 2⟩, "export-test"⟩).1 (by decide)
  · exact (C8_generate_range_status (fun _ => 0) [("export-test", sampleProfile)]
      ⟨⟨2026, 1, 1⟩, ⟨2026, 1, 3⟩, "export-test"⟩).2.2.2 sampleProfile
      (by decide) (by decide) (by decide)
